import Mathlib

/-!
Shallow embedding of the snake game engine from `src/lib/game/gameLogic.ts`
(types from `src/lib/game/types.ts`).

JavaScript numbers used as grid coordinates are modelled as `Int` (all
arithmetic on them in the source is integer arithmetic).  `Math.random()`
driven food placement is modelled by an explicit candidate stream
`cand : Nat → Position` together with a running index: each call to the
random generator consumes the next candidate.  Functions that can fail
(`initializeGame` throwing on an empty player list, `addPlayerToGame`
returning `null`) return `Option`.
-/

set_option maxRecDepth 4000

/-- A grid coordinate, from `interface Position`. -/
structure Position where
  x : Int
  y : Int
deriving DecidableEq, Repr

/-- Grid dimensions, from `gridSize: { width, height }`. -/
structure GridSize where
  width : Int
  height : Int
deriving DecidableEq, Repr

/-- Movement direction, from `enum Direction`. -/
inductive Direction where
  | UP
  | DOWN
  | LEFT
  | RIGHT
deriving DecidableEq, Repr

/-- One player's snake, from `interface Snake`. -/
structure Snake where
  id : String
  playerIndex : Nat
  body : List Position
  direction : Direction
  color : String
  score : Nat
  alive : Bool
deriving DecidableEq, Repr

instance : Inhabited Snake :=
  ⟨{ id := "", playerIndex := 0, body := [], direction := Direction.UP,
     color := "", score := 0, alive := false }⟩

/-- The whole game state, from `interface GameState`. -/
structure GameState where
  snakes : List Snake
  food : List Position
  gridSize : GridSize
  gameOver : Bool
  isPaused : Bool
deriving DecidableEq, Repr

/-- Match settings, from `interface GameSettings` (plus `maxPlayers`). -/
structure GameSettings where
  gridSize : GridSize
  speed : Nat
  foodCount : Nat
  initialSnakeLength : Nat
  maxPlayers : Nat
deriving DecidableEq, Repr

/-- The `===`-pair test `a.x === b.x && a.y === b.y` used throughout the source. -/
def posEq (a b : Position) : Bool :=
  a.x == b.x && a.y == b.y

/-- `SNAKE_COLORS` from gameLogic.ts. -/
def SNAKE_COLORS : List String :=
  ["var(--color-snake1)", "var(--color-snake2)", "var(--color-snake3)", "var(--color-snake4)"]

/-- `DEFAULT_SETTINGS` from gameLogic.ts (`maxPlayers = SNAKE_COLORS.length`). -/
def DEFAULT_SETTINGS : GameSettings :=
  { gridSize := { width := 30, height := 30 }, speed := 150, foodCount := 3,
    initialSnakeLength := 3, maxPlayers := SNAKE_COLORS.length }

/-- `getPlayerColor` from gameLogic.ts. -/
def getPlayerColor (playerIndex : Nat) : String :=
  SNAKE_COLORS.getD (playerIndex % SNAKE_COLORS.length) ""

/-- Result of `getInitialSnakePlacement`. -/
structure Placement where
  body : List Position
  direction : Direction
deriving DecidableEq, Repr

/-- The in-place swap `[body[0], body[length-1]] = [body[length-1], body[0]]`
performed in the fallback branch of `getInitialSnakePlacement`. -/
def swapHeadLast : List Position → List Position
  | [] => []
  | a :: rest =>
    match rest with
    | [] => [a]
    | _ :: _ => rest.getLastD a :: (rest.dropLast ++ [a])

/-- `getInitialSnakePlacement` from gameLogic.ts. -/
def getInitialSnakePlacement (playerIndex : Nat) (gridSize : GridSize) (length : Nat) :
    Placement :=
  let padding : Int := 2
  match playerIndex with
  | 0 =>
    let startX : Int := padding + (length : Int) - 1
    let startY : Int := padding
    { body := (List.range length).map (fun i => { x := startX - (i : Int), y := startY }),
      direction := Direction.RIGHT }
  | 1 =>
    let startX : Int := gridSize.width - 1 - padding - (length : Int) + 1
    let startY : Int := gridSize.height - 1 - padding
    { body := (List.range length).map (fun i => { x := startX + (i : Int), y := startY }),
      direction := Direction.LEFT }
  | 2 =>
    let startX : Int := gridSize.width - 1 - padding - (length : Int) + 1
    let startY : Int := padding
    { body := (List.range length).map (fun i => { x := startX + (i : Int), y := startY }),
      direction := Direction.LEFT }
  | 3 =>
    let startX : Int := padding + (length : Int) - 1
    let startY : Int := gridSize.height - 1 - padding
    { body := (List.range length).map (fun i => { x := startX - (i : Int), y := startY }),
      direction := Direction.RIGHT }
  | n + 4 =>
    let pIdx := n + 4
    let startX : Int := Int.ediv gridSize.width 2 + (if pIdx % 2 = 0 then -2 else 2)
    let startY : Int := Int.ediv gridSize.height 2 + (if pIdx % 3 = 0 then -2 else 2)
    let direction :=
      [Direction.UP, Direction.DOWN, Direction.LEFT, Direction.RIGHT].getD (pIdx % 4) Direction.UP
    let body : List Position :=
      { x := startX, y := startY } ::
        (List.range (length - 1)).map (fun i => { x := startX, y := startY + (i : Int) + 1 })
    { body := swapHeadLast body, direction := direction }

/-- The `do … while` retry loop inside `generateFood`, with explicit fuel.
`attempts` counts draws as in the source; once `attempts > width*height`
the current (possibly occupied) draw is returned as fallback. -/
def generateFoodLoop (gridSize : GridSize) (occupiedPositions : List Position)
    (cand : Nat → Position) : Nat → Int → Nat → Position × Nat
  | idx, _, 0 => (cand idx, idx + 1)
  | idx, attempts, fuel + 1 =>
    let food := cand idx
    let attempts' := attempts + 1
    if attempts' > gridSize.width * gridSize.height then (food, idx + 1)
    else if occupiedPositions.any (fun pos => posEq pos food) then
      generateFoodLoop gridSize occupiedPositions cand (idx + 1) attempts' fuel
    else (food, idx + 1)

/-- `generateFood` from gameLogic.ts: draw random cells until one avoids
`occupiedPositions` or the attempt budget `width*height` is exhausted.
Returns the food cell and the index of the next unused random candidate. -/
def generateFood (gridSize : GridSize) (occupiedPositions : List Position)
    (cand : Nat → Position) (idx : Nat) : Position × Nat :=
  generateFoodLoop gridSize occupiedPositions cand idx 0
    ((gridSize.width * gridSize.height).toNat + 1)

/-- `getNextPosition` from gameLogic.ts: move one cell, then wrap each axis. -/
def getNextPosition (head : Position) (direction : Direction) (gridSize : GridSize) :
    Position :=
  let p : Position :=
    match direction with
    | Direction.UP => { head with y := head.y - 1 }
    | Direction.DOWN => { head with y := head.y + 1 }
    | Direction.LEFT => { head with x := head.x - 1 }
    | Direction.RIGHT => { head with x := head.x + 1 }
  let x1 := if p.x < 0 then gridSize.width - 1 else p.x
  let x2 := if x1 ≥ gridSize.width then 0 else x1
  let y1 := if p.y < 0 then gridSize.height - 1 else p.y
  let y2 := if y1 ≥ gridSize.height then 0 else y1
  { x := x2, y := y2 }

/-- `checkCollision` from gameLogic.ts: `nextHeadPos` hits any segment of any
body (the `movingSnakeIndex` parameter is accepted but, as in the source,
never influences the result). -/
def checkCollision (nextHeadPos : Position) (allSnakeBodies : List (List Position))
    (_movingSnakeIndex : Nat) : Bool :=
  allSnakeBodies.any (fun body => body.any (fun seg => posEq nextHeadPos seg))

/-- `Array.prototype.findIndex` specialised to the food lookup
`food.findIndex(f => f.x === nextPos.x && f.y === nextPos.y)`,
returning `none` for `-1`. -/
def findFoodIdx (p : Position) : List Position → Option Nat
  | [] => none
  | f :: rest => if posEq f p then some 0 else (findFoodIdx p rest).map (· + 1)

/-- The body of the per-snake `for` loop in `updateGame`: given the pre-tick
body snapshot `allCurrentBodies` and the current (threaded) food list,
process one snake.  Returns the updated snake, the food list after this
snake, and the next random-candidate index. -/
def stepSnake (gridSize : GridSize) (allCurrentBodies : List (List Position))
    (cand : Nat → Position) (snake : Snake) (food : List Position) (idx : Nat) :
    Snake × List Position × Nat :=
  if snake.alive = false then (snake, food, idx)
  else
    let head := snake.body.headD { x := 0, y := 0 }
    let nextPos := getNextPosition head snake.direction gridSize
    if checkCollision nextPos allCurrentBodies snake.playerIndex then
      ({ snake with alive := false }, food, idx)
    else
      match findFoodIdx nextPos food with
      | some foodIndex =>
        let remaining := food.eraseIdx foodIndex
        let allOccupiedNow := allCurrentBodies.flatten ++ nextPos :: remaining
        let gen := generateFood gridSize allOccupiedNow cand idx
        ({ snake with score := snake.score + 1, body := nextPos :: snake.body },
         remaining ++ [gen.1], gen.2)
      | none =>
        ({ snake with body := nextPos :: snake.body.dropLast }, food, idx)

/-- The whole per-snake loop of `updateGame`, threading the food list and the
random-candidate index left to right (later snakes see food changes made by
earlier snakes in the same tick, exactly as in the source). -/
def updateSnakes (gridSize : GridSize) (allCurrentBodies : List (List Position))
    (cand : Nat → Position) : List Snake → List Position → Nat →
    List Snake × List Position × Nat
  | [], food, idx => ([], food, idx)
  | s :: rest, food, idx =>
    let r1 := stepSnake gridSize allCurrentBodies cand s food idx
    let r2 := updateSnakes gridSize allCurrentBodies cand rest r1.2.1 r1.2.2
    (r1.1 :: r2.1, r2.2.1, r2.2.2)

/-- `updateGame` from gameLogic.ts (one tick). -/
def updateGame (cand : Nat → Position) (gameState : GameState) (idx : Nat) :
    GameState × Nat :=
  if gameState.gameOver || gameState.isPaused then (gameState, idx)
  else
    let allCurrentBodies := gameState.snakes.map (fun snake => snake.body)
    let r := updateSnakes gameState.gridSize allCurrentBodies cand
      gameState.snakes gameState.food idx
    let wasAnyAlive := gameState.snakes.any (fun snake => snake.alive)
    let newGameOver :=
      if wasAnyAlive = true then !(r.1.any (fun snake => snake.alive))
      else gameState.gameOver
    ({ snakes := r.1, food := r.2.1, gridSize := gameState.gridSize,
       gameOver := newGameOver, isPaused := gameState.isPaused }, r.2.2)

/-- `Array.prototype.findIndex` specialised to the snake lookup
`snakes.findIndex(snake => snake.id === playerId)`, `none` for `-1`. -/
def findSnakeIdx (playerId : String) : List Snake → Option Nat
  | [] => none
  | s :: rest => if s.id = playerId then some 0 else (findSnakeIdx playerId rest).map (· + 1)

/-- The 180-degree test in `changeDirection`. -/
def isOpposite (currentDirection newDirection : Direction) : Bool :=
  match currentDirection, newDirection with
  | Direction.UP, Direction.DOWN => true
  | Direction.DOWN, Direction.UP => true
  | Direction.LEFT, Direction.RIGHT => true
  | Direction.RIGHT, Direction.LEFT => true
  | _, _ => false

/-- `changeDirection` from gameLogic.ts. -/
def changeDirection (gameState : GameState) (playerId : String)
    (newDirection : Direction) : GameState :=
  match findSnakeIdx playerId gameState.snakes with
  | none => gameState
  | some snakeIndex =>
    let snake := gameState.snakes.getD snakeIndex default
    if snake.alive = false then gameState
    else if 1 < snake.body.length ∧ isOpposite snake.direction newDirection = true then
      gameState
    else if snake.direction ≠ newDirection then
      { gameState with
        snakes := gameState.snakes.set snakeIndex { snake with direction := newDirection } }
    else gameState

/-- The snake-creation `forEach` of `initializeGame`: one snake per id,
`playerIndex` counting up from the accumulator. -/
def mkSnakes (gridSize : GridSize) (length : Nat) : Nat → List String → List Snake
  | _, [] => []
  | i, pid :: rest =>
    let placement := getInitialSnakePlacement i gridSize length
    { id := pid, playerIndex := i, body := placement.body,
      direction := placement.direction, color := getPlayerColor i,
      score := 0, alive := true } :: mkSnakes gridSize length (i + 1) rest

/-- The food-creation `for` loop of `initializeGame`: `n` food items, each
avoiding all snake bodies and the food placed so far. -/
def genFoods (gridSize : GridSize) (cand : Nat → Position) (allFlat : List Position) :
    Nat → List Position → Nat → List Position × Nat
  | 0, food, idx => (food, idx)
  | n + 1, food, idx =>
    let gen := generateFood gridSize (allFlat ++ food) cand idx
    genFoods gridSize cand allFlat n (food ++ [gen.1]) gen.2

/-- `initializeGame` from gameLogic.ts.  The `throw` on an empty player list
is modelled as `none`; the player list is silently truncated to
`maxPlayers`.  Returns the fresh state and the next candidate index. -/
def initializeGame (playerIds : List String) (settings : GameSettings)
    (cand : Nat → Position) (idx : Nat) : Option (GameState × Nat) :=
  if playerIds = [] then none
  else
    let ids :=
      if settings.maxPlayers < playerIds.length then playerIds.take settings.maxPlayers
      else playerIds
    let snakes := mkSnakes settings.gridSize settings.initialSnakeLength 0 ids
    let allFlat := (snakes.map (fun s => s.body)).flatten
    let fr := genFoods settings.gridSize cand allFlat settings.foodCount [] idx
    some ({ snakes := snakes, food := fr.1, gridSize := settings.gridSize,
            gameOver := false, isPaused := false }, fr.2)

/-- `addPlayerToGame` from gameLogic.ts.  `null` is modelled as `none`.
As in the source, the capacity limit and the spawn length come from
`DEFAULT_SETTINGS`, not from the state. -/
def addPlayerToGame (gameState : GameState) (playerId : String) : Option GameState :=
  let currentPlayers := gameState.snakes.length
  if DEFAULT_SETTINGS.maxPlayers ≤ currentPlayers then none
  else
    let placement :=
      getInitialSnakePlacement currentPlayers gameState.gridSize
        DEFAULT_SETTINGS.initialSnakeLength
    let allOccupied := (gameState.snakes.map (fun s => s.body)).flatten ++ gameState.food
    if placement.body.any (fun pos => allOccupied.any (fun occupiedPos => posEq occupiedPos pos))
    then none
    else
      some { gameState with
        snakes := gameState.snakes ++
          [{ id := playerId, playerIndex := currentPlayers, body := placement.body,
             direction := placement.direction, color := getPlayerColor currentPlayers,
             score := 0, alive := true }] }

/-- The inverse direction on each axis (the spec's `reverse(D)`). -/
def reverseDir : Direction → Direction
  | Direction.UP => Direction.DOWN
  | Direction.DOWN => Direction.UP
  | Direction.LEFT => Direction.RIGHT
  | Direction.RIGHT => Direction.LEFT

/-- One engine operation applied by the host between broadcasts: a tick,
a direction change, or a successful player addition. -/
inductive EngineStep : GameState → GameState → Prop
  | tick (cand : Nat → Position) (idx : Nat) (gs : GameState) :
      EngineStep gs (updateGame cand gs idx).1
  | dir (pid : String) (d : Direction) (gs : GameState) :
      EngineStep gs (changeDirection gs pid d)
  | add (pid : String) (gs gs' : GameState) :
      addPlayerToGame gs pid = some gs' → EngineStep gs gs'

/-- States reachable from `initializeGame` with default settings by any
sequence of engine operations. -/
inductive ReachableDefault : GameState → Prop
  | init (ids : List String) (cand : Nat → Position) (idx : Nat)
      (gs : GameState) (idx' : Nat) :
      initializeGame ids DEFAULT_SETTINGS cand idx = some (gs, idx') →
      ReachableDefault gs
  | step (gs gs' : GameState) :
      ReachableDefault gs → EngineStep gs gs' → ReachableDefault gs'

/-! ### Basic lemmas about the helper predicates -/

theorem posEq_iff (a b : Position) : posEq a b = true ↔ a = b := by
  cases a with
  | mk ax ay =>
    cases b with
    | mk bx by' =>
      simp [posEq, Position.mk.injEq]

theorem posEq_refl (a : Position) : posEq a a = true := by
  simp [posEq_iff]

theorem checkCollision_iff (p : Position) (ab : List (List Position)) (k : Nat) :
    checkCollision p ab k = true ↔ ∃ b ∈ ab, p ∈ b := by
  simp only [checkCollision, List.any_eq_true]
  constructor
  · rintro ⟨b, hb, seg, hseg, heq⟩
    exact ⟨b, hb, (posEq_iff p seg).1 heq ▸ hseg⟩
  · rintro ⟨b, hb, hmem⟩
    exact ⟨b, hb, p, hmem, posEq_refl p⟩

theorem checkCollision_eq_false (p : Position) (ab : List (List Position)) (k : Nat)
    (h : ∀ b ∈ ab, p ∉ b) : checkCollision p ab k = false := by
  rcases hc : checkCollision p ab k with _ | _
  · rfl
  · obtain ⟨b, hb, hm⟩ := (checkCollision_iff p ab k).1 hc
    exact absurd hm (h b hb)

theorem findFoodIdx_eq_none (p : Position) :
    ∀ l : List Position, findFoodIdx p l = none ↔ p ∉ l := by
  intro l
  induction l with
  | nil => simp [findFoodIdx]
  | cons f rest ih =>
    by_cases hf : posEq f p = true
    · have hfp : f = p := (posEq_iff f p).1 hf
      subst hfp
      simp [findFoodIdx, posEq_refl]
    · have hne : p ≠ f := by
        intro h
        subst h
        exact hf (posEq_refl p)
      rw [Bool.not_eq_true] at hf
      simp only [findFoodIdx, hf, Bool.false_eq_true, if_false, Option.map_eq_none', ih,
        List.mem_cons]
      constructor
      · intro hnp
        rintro (rfl | hm)
        · exact hne rfl
        · exact hnp hm
      · intro h hm
        exact h (Or.inr hm)

theorem findFoodIdx_mem (p : Position) (l : List Position) (h : p ∈ l) :
    ∃ k, findFoodIdx p l = some k := by
  rcases hf : findFoodIdx p l with _ | k
  · exact absurd h ((findFoodIdx_eq_none p l).1 hf)
  · exact ⟨k, rfl⟩

/-- Structure of a successful food lookup: the list splits at the found index
into a prefix without matches, the matched element (which equals `p`), and a
suffix; `eraseIdx` at that index removes exactly the matched element. -/
theorem findFoodIdx_some_decomp (p : Position) :
    ∀ (l : List Position) (k : Nat), findFoodIdx p l = some k →
    ∃ l1 l2, l = l1 ++ p :: l2 ∧ k = l1.length ∧ l.eraseIdx k = l1 ++ l2 := by
  intro l
  induction l with
  | nil => intro k h; simp [findFoodIdx] at h
  | cons f rest ih =>
    intro k h
    by_cases hf : posEq f p = true
    · have : f = p := (posEq_iff f p).1 hf
      subst this
      simp only [findFoodIdx, posEq_refl, if_true, Option.some.injEq] at h
      subst h
      exact ⟨[], rest, rfl, rfl, rfl⟩
    · rw [Bool.not_eq_true] at hf
      simp only [findFoodIdx, hf, Bool.false_eq_true, if_false, Option.map_eq_some'] at h
      obtain ⟨k', hk', hkk⟩ := h
      obtain ⟨l1, l2, hsplit, hlen, herase⟩ := ih k' hk'
      refine ⟨f :: l1, l2, by simp [hsplit], by simp [hlen, hkk.symm], ?_⟩
      rw [hkk.symm]
      simp [List.eraseIdx_cons_succ, herase]

/-! ### Case analysis of one snake's processing step -/

/-- The next head position a snake would move to. -/
def nextHead (gridSize : GridSize) (snake : Snake) : Position :=
  getNextPosition (snake.body.headD { x := 0, y := 0 }) snake.direction gridSize

theorem stepSnake_dead (gz : GridSize) (ab : List (List Position)) (cand : Nat → Position)
    (s : Snake) (food : List Position) (idx : Nat) (h : s.alive = false) :
    stepSnake gz ab cand s food idx = (s, food, idx) := by
  simp [stepSnake, h]

theorem stepSnake_collide (gz : GridSize) (ab : List (List Position)) (cand : Nat → Position)
    (s : Snake) (food : List Position) (idx : Nat) (ha : s.alive = true)
    (hc : checkCollision (nextHead gz s) ab s.playerIndex = true) :
    stepSnake gz ab cand s food idx = ({ s with alive := false }, food, idx) := by
  simp [stepSnake, ha, nextHead] at hc ⊢
  simp [hc]

theorem stepSnake_eat (gz : GridSize) (ab : List (List Position)) (cand : Nat → Position)
    (s : Snake) (food : List Position) (idx : Nat) (k : Nat) (ha : s.alive = true)
    (hc : checkCollision (nextHead gz s) ab s.playerIndex = false)
    (hk : findFoodIdx (nextHead gz s) food = some k) :
    stepSnake gz ab cand s food idx =
      ({ s with score := s.score + 1, body := nextHead gz s :: s.body },
       food.eraseIdx k ++
         [(generateFood gz (ab.flatten ++ nextHead gz s :: food.eraseIdx k) cand idx).1],
       (generateFood gz (ab.flatten ++ nextHead gz s :: food.eraseIdx k) cand idx).2) := by
  simp only [nextHead, List.headD_eq_head?] at hc hk
  simp [stepSnake, ha, hc, hk, nextHead, List.headD_eq_head?]

theorem stepSnake_move (gz : GridSize) (ab : List (List Position)) (cand : Nat → Position)
    (s : Snake) (food : List Position) (idx : Nat) (ha : s.alive = true)
    (hc : checkCollision (nextHead gz s) ab s.playerIndex = false)
    (hk : findFoodIdx (nextHead gz s) food = none) :
    stepSnake gz ab cand s food idx =
      ({ s with body := nextHead gz s :: s.body.dropLast }, food, idx) := by
  simp only [nextHead, List.headD_eq_head?] at hc hk
  simp [stepSnake, ha, hc, hk, nextHead, List.headD_eq_head?]

/-- Every result of `stepSnake` is one of four shapes. -/
theorem stepSnake_cases (gz : GridSize) (ab : List (List Position)) (cand : Nat → Position)
    (s : Snake) (food : List Position) (idx : Nat) :
    (s.alive = false ∧ stepSnake gz ab cand s food idx = (s, food, idx)) ∨
    (s.alive = true ∧ checkCollision (nextHead gz s) ab s.playerIndex = true ∧
      stepSnake gz ab cand s food idx = ({ s with alive := false }, food, idx)) ∨
    (s.alive = true ∧ checkCollision (nextHead gz s) ab s.playerIndex = false ∧
      ((stepSnake gz ab cand s food idx).1 =
          { s with score := s.score + 1, body := nextHead gz s :: s.body } ∨
       (stepSnake gz ab cand s food idx).1 =
          { s with body := nextHead gz s :: s.body.dropLast })) := by
  rcases ha : s.alive with _ | _
  · exact Or.inl ⟨rfl, stepSnake_dead gz ab cand s food idx ha⟩
  · rcases hc : checkCollision (nextHead gz s) ab s.playerIndex with _ | _
    · rcases hk : findFoodIdx (nextHead gz s) food with _ | k
      · exact Or.inr (Or.inr ⟨rfl, rfl,
          Or.inr (by rw [stepSnake_move gz ab cand s food idx ha hc hk]; simp [ha])⟩)
      · exact Or.inr (Or.inr ⟨rfl, rfl,
          Or.inl (by rw [stepSnake_eat gz ab cand s food idx k ha hc hk]; simp [ha])⟩)
    · exact Or.inr (Or.inl ⟨rfl, rfl, stepSnake_collide gz ab cand s food idx ha hc⟩)

/-- `stepSnake` never changes the number of food items. -/
theorem stepSnake_food_length (gz : GridSize) (ab : List (List Position))
    (cand : Nat → Position) (s : Snake) (food : List Position) (idx : Nat) :
    (stepSnake gz ab cand s food idx).2.1.length = food.length := by
  rcases ha : s.alive with _ | _
  · rw [stepSnake_dead gz ab cand s food idx ha]
  · rcases hc : checkCollision (nextHead gz s) ab s.playerIndex with _ | _
    · rcases hk : findFoodIdx (nextHead gz s) food with _ | k
      · rw [stepSnake_move gz ab cand s food idx ha hc hk]
      · rw [stepSnake_eat gz ab cand s food idx k ha hc hk]
        obtain ⟨l1, l2, hsplit, hlen, herase⟩ :=
          findFoodIdx_some_decomp (nextHead gz s) food k hk
        rw [List.length_append, herase, hsplit]
        simp
        omega
    · rw [stepSnake_collide gz ab cand s food idx ha hc]

/-- Food membership survives a snake step whose next head (if it moves at all)
is a different cell. -/
theorem stepSnake_food_mem (gz : GridSize) (ab : List (List Position))
    (cand : Nat → Position) (s : Snake) (food : List Position) (idx : Nat)
    (P : Position) (hP : P ∈ food) (hne : s.alive = true → nextHead gz s ≠ P) :
    P ∈ (stepSnake gz ab cand s food idx).2.1 := by
  rcases ha : s.alive with _ | _
  · rw [stepSnake_dead gz ab cand s food idx ha]; exact hP
  · rcases hc : checkCollision (nextHead gz s) ab s.playerIndex with _ | _
    · rcases hk : findFoodIdx (nextHead gz s) food with _ | k
      · rw [stepSnake_move gz ab cand s food idx ha hc hk]; exact hP
      · rw [stepSnake_eat gz ab cand s food idx k ha hc hk]
        obtain ⟨l1, l2, hsplit, hlen, herase⟩ :=
          findFoodIdx_some_decomp (nextHead gz s) food k hk
        have hPmem : P ∈ l1 ++ l2 := by
          subst hsplit
          rcases List.mem_append.1 hP with h1 | h2
          · exact List.mem_append.2 (Or.inl h1)
          · rcases List.mem_cons.1 h2 with heq | h2'
            · exact absurd heq.symm (hne ha)
            · exact List.mem_append.2 (Or.inr h2')
        rw [herase]
        exact List.mem_append.2 (Or.inl hPmem)
    · rw [stepSnake_collide gz ab cand s food idx ha hc]; exact hP

/-! ### The per-snake loop of a tick -/

theorem updateSnakes_length (gz : GridSize) (ab : List (List Position))
    (cand : Nat → Position) :
    ∀ (snakes : List Snake) (food : List Position) (idx : Nat),
    ((updateSnakes gz ab cand snakes food idx).1).length = snakes.length := by
  intro snakes
  induction snakes with
  | nil => intro food idx; rfl
  | cons s rest ih =>
    intro food idx
    simp [updateSnakes, ih]

/-- The snake at position `i` of a tick's output is the step applied to the
input snake at position `i`, for some threaded food list and candidate index. -/
theorem updateSnakes_get (gz : GridSize) (ab : List (List Position))
    (cand : Nat → Position) :
    ∀ (snakes : List Snake) (food : List Position) (idx : Nat) (i : Nat)
      (h : i < snakes.length),
    ∃ f x, ∃ h2 : i < ((updateSnakes gz ab cand snakes food idx).1).length,
      ((updateSnakes gz ab cand snakes food idx).1).get ⟨i, h2⟩ =
        (stepSnake gz ab cand (snakes.get ⟨i, h⟩) f x).1 := by
  intro snakes
  induction snakes with
  | nil =>
    intro food idx i h
    exact absurd h (by simp)
  | cons s rest ih =>
    intro food idx i h
    match i with
    | 0 =>
      refine ⟨food, idx, ?_, ?_⟩
      · simp [updateSnakes_length]
      · simp [updateSnakes]
    | i + 1 =>
      obtain ⟨f, x, h2, hg⟩ := ih (stepSnake gz ab cand s food idx).2.1
        (stepSnake gz ab cand s food idx).2.2 i (by simpa using h)
      refine ⟨f, x, ?_, ?_⟩
      · simp only [updateSnakes_length] at h2 ⊢
        simpa using Nat.succ_lt_succ h2
      · simpa [updateSnakes] using hg

/-- Every snake in a tick's output arises as a step of some input snake. -/
theorem updateSnakes_mem (gz : GridSize) (ab : List (List Position))
    (cand : Nat → Position) :
    ∀ (snakes : List Snake) (food : List Position) (idx : Nat) (s' : Snake),
    s' ∈ (updateSnakes gz ab cand snakes food idx).1 →
    ∃ s ∈ snakes, ∃ f x, s' = (stepSnake gz ab cand s f x).1 := by
  intro snakes
  induction snakes with
  | nil =>
    intro food idx s' h
    simp [updateSnakes] at h
  | cons s rest ih =>
    intro food idx s' h
    simp only [updateSnakes, List.mem_cons] at h
    rcases h with h | h
    · exact ⟨s, List.mem_cons_self s rest, food, idx, h⟩
    · obtain ⟨t, ht, f, x, hfx⟩ := ih (stepSnake gz ab cand s food idx).2.1
        (stepSnake gz ab cand s food idx).2.2 s' h
      exact ⟨t, List.mem_cons_of_mem s ht, f, x, hfx⟩

/-- A tick never changes the number of food items. -/
theorem updateSnakes_food_length (gz : GridSize) (ab : List (List Position))
    (cand : Nat → Position) :
    ∀ (snakes : List Snake) (food : List Position) (idx : Nat),
    ((updateSnakes gz ab cand snakes food idx).2.1).length = food.length := by
  intro snakes
  induction snakes with
  | nil => intro food idx; rfl
  | cons s rest ih =>
    intro food idx
    simp [updateSnakes, ih, stepSnake_food_length]

/-- Refinement of `updateSnakes_get`: if a food cell `P` is present at the
start of the tick and no earlier alive snake moves onto `P`, then `P` is still
in the threaded food list when snake `i` is processed. -/
theorem updateSnakes_get_foodMem (gz : GridSize) (ab : List (List Position))
    (cand : Nat → Position) (P : Position) :
    ∀ (snakes : List Snake) (food : List Position) (idx : Nat) (i : Nat)
      (h : i < snakes.length),
    P ∈ food →
    (∀ j (hj : j < i),
      (snakes.get ⟨j, Nat.lt_trans hj h⟩).alive = true →
      nextHead gz (snakes.get ⟨j, Nat.lt_trans hj h⟩) ≠ P) →
    ∃ f x, P ∈ f ∧ ∃ h2 : i < ((updateSnakes gz ab cand snakes food idx).1).length,
      ((updateSnakes gz ab cand snakes food idx).1).get ⟨i, h2⟩ =
        (stepSnake gz ab cand (snakes.get ⟨i, h⟩) f x).1 := by
  intro snakes
  induction snakes with
  | nil =>
    intro food idx i h
    exact absurd h (by simp)
  | cons s rest ih =>
    intro food idx i h hP hprev
    match i with
    | 0 =>
      refine ⟨food, idx, hP, ?_, ?_⟩
      · simp [updateSnakes_length]
      · simp [updateSnakes]
    | i + 1 =>
      have hP1 : P ∈ (stepSnake gz ab cand s food idx).2.1 := by
        apply stepSnake_food_mem gz ab cand s food idx P hP
        intro halive
        have := hprev 0 (Nat.succ_pos i) halive
        simpa using this
      have hprev1 : ∀ j (hj : j < i),
          (rest.get ⟨j, Nat.lt_trans hj (by simpa using h)⟩).alive = true →
          nextHead gz (rest.get ⟨j, Nat.lt_trans hj (by simpa using h)⟩) ≠ P := by
        intro j hj halive
        have := hprev (j + 1) (Nat.succ_lt_succ hj)
        simp only [List.get_cons_succ] at this
        exact this halive
      obtain ⟨f, x, hPf, h2, hg⟩ := ih (stepSnake gz ab cand s food idx).2.1
        (stepSnake gz ab cand s food idx).2.2 i (by simpa using h) hP1 hprev1
      refine ⟨f, x, hPf, ?_, ?_⟩
      · simp only [updateSnakes_length] at h2 ⊢
        simpa using Nat.succ_lt_succ h2
      · simpa [updateSnakes] using hg

/-! ### Components of a tick's result -/

theorem updateGame_snakes (cand : Nat → Position) (gs : GameState) (idx : Nat)
    (h1 : gs.gameOver = false) (h2 : gs.isPaused = false) :
    (updateGame cand gs idx).1.snakes =
      (updateSnakes gs.gridSize (gs.snakes.map (fun snake => snake.body)) cand
        gs.snakes gs.food idx).1 := by
  simp [updateGame, h1, h2]

theorem updateGame_food (cand : Nat → Position) (gs : GameState) (idx : Nat)
    (h1 : gs.gameOver = false) (h2 : gs.isPaused = false) :
    (updateGame cand gs idx).1.food =
      (updateSnakes gs.gridSize (gs.snakes.map (fun snake => snake.body)) cand
        gs.snakes gs.food idx).2.1 := by
  simp [updateGame, h1, h2]

theorem updateGame_gridSize (cand : Nat → Position) (gs : GameState) (idx : Nat) :
    (updateGame cand gs idx).1.gridSize = gs.gridSize := by
  rcases h1 : gs.gameOver with _ | _ <;> rcases h2 : gs.isPaused with _ | _ <;>
    simp [updateGame, h1, h2]

theorem updateGame_isPaused (cand : Nat → Position) (gs : GameState) (idx : Nat) :
    (updateGame cand gs idx).1.isPaused = gs.isPaused := by
  rcases h1 : gs.gameOver with _ | _ <;> rcases h2 : gs.isPaused with _ | _ <;>
    simp [updateGame, h1, h2]

theorem updateGame_gameOver_def (cand : Nat → Position) (gs : GameState) (idx : Nat)
    (h1 : gs.gameOver = false) (h2 : gs.isPaused = false) :
    (updateGame cand gs idx).1.gameOver =
      (if gs.snakes.any (fun snake => snake.alive) = true
       then !((updateGame cand gs idx).1.snakes.any (fun snake => snake.alive))
       else gs.gameOver) := by
  simp [updateGame, h1, h2]

theorem updateGame_noop (cand : Nat → Position) (gs : GameState) (idx : Nat)
    (h : gs.gameOver = true ∨ gs.isPaused = true) :
    (updateGame cand gs idx).1 = gs := by
  rcases h with h | h <;> simp [updateGame, h]

/-! ### Snake lookup by id -/

theorem findSnakeIdx_some (pid : String) :
    ∀ (l : List Snake) (k : Nat), findSnakeIdx pid l = some k →
    ∃ hk : k < l.length, (l.get ⟨k, hk⟩).id = pid := by
  intro l
  induction l with
  | nil => intro k h; simp [findSnakeIdx] at h
  | cons s rest ih =>
    intro k h
    by_cases hs : s.id = pid
    · simp only [findSnakeIdx, hs, if_true, Option.some.injEq] at h
      subst h
      exact ⟨by simp, hs⟩
    · simp only [findSnakeIdx, hs, if_false, Option.map_eq_some'] at h
      obtain ⟨k', hk', hkk⟩ := h
      obtain ⟨hb, hid⟩ := ih k' hk'
      subst hkk
      exact ⟨by simpa using Nat.succ_lt_succ hb, by simpa using hid⟩

/-- The four possible outcomes of `changeDirection`: either the state is
returned unchanged, or exactly the addressed (alive) snake's direction is
replaced. -/
theorem changeDirection_cases (gs : GameState) (pid : String) (nd : Direction) :
    changeDirection gs pid nd = gs ∨
    ∃ j, ∃ hj : j < gs.snakes.length,
      findSnakeIdx pid gs.snakes = some j ∧
      (gs.snakes.get ⟨j, hj⟩).alive = true ∧
      changeDirection gs pid nd =
        { gs with snakes :=
            gs.snakes.set j { gs.snakes.get ⟨j, hj⟩ with direction := nd } } := by
  rcases hf : findSnakeIdx pid gs.snakes with _ | j
  · left
    simp [changeDirection, hf]
  · obtain ⟨hj, _⟩ := findSnakeIdx_some pid gs.snakes j hf
    have hgetD : gs.snakes.getD j default = gs.snakes.get ⟨j, hj⟩ := by
      simp [List.getD, List.getElem?_eq_getElem hj]
    have hunfold : changeDirection gs pid nd =
        (if (gs.snakes.get ⟨j, hj⟩).alive = false then gs
         else if 1 < (gs.snakes.get ⟨j, hj⟩).body.length ∧
             isOpposite (gs.snakes.get ⟨j, hj⟩).direction nd = true then gs
         else if (gs.snakes.get ⟨j, hj⟩).direction ≠ nd then
           { gs with snakes :=
               gs.snakes.set j { gs.snakes.get ⟨j, hj⟩ with direction := nd } }
         else gs) := by
      simp only [changeDirection, hf]
      rw [hgetD]
    rcases ha : (gs.snakes.get ⟨j, hj⟩).alive with _ | _
    · left
      rw [hunfold, if_pos ha]
    · rw [hunfold, if_neg (by rw [ha]; simp)]
      by_cases hop : 1 < (gs.snakes.get ⟨j, hj⟩).body.length ∧
          isOpposite (gs.snakes.get ⟨j, hj⟩).direction nd = true
      · left
        rw [if_pos hop]
      · rw [if_neg hop]
        by_cases hdiff : (gs.snakes.get ⟨j, hj⟩).direction = nd
        · left
          rw [if_neg (fun hcon => hcon hdiff)]
        · right
          exact ⟨j, hj, rfl, ha, by rw [if_pos hdiff]⟩

/-! ### Direction facts -/

theorem isOpposite_reverseDir (d : Direction) : isOpposite d (reverseDir d) = true := by
  cases d <;> rfl

theorem reverseDir_ne (d : Direction) : reverseDir d ≠ d := by
  cases d <;> simp [reverseDir]

/-- Fully unfolded form of `changeDirection` once the id lookup succeeded. -/
theorem changeDirection_found (gs : GameState) (pid : String) (nd : Direction)
    (j : Nat) (hj : j < gs.snakes.length) (hf : findSnakeIdx pid gs.snakes = some j) :
    changeDirection gs pid nd =
      (if (gs.snakes.get ⟨j, hj⟩).alive = false then gs
       else if 1 < (gs.snakes.get ⟨j, hj⟩).body.length ∧
           isOpposite (gs.snakes.get ⟨j, hj⟩).direction nd = true then gs
       else if (gs.snakes.get ⟨j, hj⟩).direction ≠ nd then
         { gs with snakes :=
             gs.snakes.set j { gs.snakes.get ⟨j, hj⟩ with direction := nd } }
       else gs) := by
  have hgetD : gs.snakes.getD j default = gs.snakes.get ⟨j, hj⟩ := by
    simp [List.getD, List.getElem?_eq_getElem hj]
  simp only [changeDirection, hf]
  rw [hgetD]

/-- C5: for every state and alive snake found under its id, if its body is
longer than one segment then `changeDirection` to the exact reverse of its
current direction returns the input state unchanged (for every current
direction, hence all four axis pairs); a single-segment snake instead has its
direction replaced by the reverse. -/
theorem claim_c5_reverse_rejection (gs : GameState) (sid : String) (i : Nat)
    (hi : i < gs.snakes.length)
    (hfind : findSnakeIdx sid gs.snakes = some i)
    (halive : (gs.snakes.get ⟨i, hi⟩).alive = true) :
    (1 < (gs.snakes.get ⟨i, hi⟩).body.length →
      changeDirection gs sid (reverseDir (gs.snakes.get ⟨i, hi⟩).direction) = gs)
    ∧ ((gs.snakes.get ⟨i, hi⟩).body.length = 1 →
      changeDirection gs sid (reverseDir (gs.snakes.get ⟨i, hi⟩).direction) =
        { gs with snakes := (gs.snakes.set i
            { gs.snakes.get ⟨i, hi⟩ with
              direction := reverseDir (gs.snakes.get ⟨i, hi⟩).direction }) }) := by
  rw [changeDirection_found gs sid (reverseDir (gs.snakes.get ⟨i, hi⟩).direction) i hi hfind]
  rw [if_neg (by rw [halive]; simp)]
  constructor
  · intro hlen
    rw [if_pos ⟨hlen, isOpposite_reverseDir (gs.snakes.get ⟨i, hi⟩).direction⟩]
  · intro hlen
    rw [if_neg (by
      rintro ⟨hgt, _⟩
      rw [hlen] at hgt
      exact absurd hgt (by omega))]
    rw [if_pos (Ne.symm (reverseDir_ne (gs.snakes.get ⟨i, hi⟩).direction))]

/-- A three-segment snake heading right, for concrete instantiations. -/
def snakeLong : Snake :=
  { id := "a", playerIndex := 0,
    body := [{ x := 4, y := 2 }, { x := 3, y := 2 }, { x := 2, y := 2 }],
    direction := Direction.RIGHT, color := "var(--color-snake1)", score := 0, alive := true }

/-- A single-segment snake heading up, for concrete instantiations. -/
def snakeOne : Snake :=
  { id := "b", playerIndex := 0, body := [{ x := 5, y := 5 }],
    direction := Direction.UP, color := "var(--color-snake1)", score := 0, alive := true }

def gsLong : GameState :=
  { snakes := [snakeLong], food := [], gridSize := { width := 30, height := 30 },
    gameOver := false, isPaused := false }

def gsOne : GameState :=
  { snakes := [snakeOne], food := [], gridSize := { width := 30, height := 30 },
    gameOver := false, isPaused := false }

/-- Witness for C5 at concrete inputs: a length-3 snake heading RIGHT cannot
turn LEFT; a length-1 snake heading UP can turn DOWN. -/
theorem claim_c5_witness :
    changeDirection gsLong "a" Direction.LEFT = gsLong ∧
    changeDirection gsOne "b" Direction.DOWN =
      { gsOne with snakes := [{ snakeOne with direction := Direction.DOWN }] } := by
  constructor
  · exact (claim_c5_reverse_rejection gsLong "a" 0 (by decide) (by decide) (by decide)).1
      (by decide)
  · exact (claim_c5_reverse_rejection gsOne "b" 0 (by decide) (by decide) (by decide)).2
      (by decide)

/-! ### Initialization lemmas -/

theorem mkSnakes_length (gz : GridSize) (len : Nat) :
    ∀ (ids : List String) (i0 : Nat), (mkSnakes gz len i0 ids).length = ids.length := by
  intro ids
  induction ids with
  | nil => intro i0; rfl
  | cons pid rest ih => intro i0; simp [mkSnakes, ih]

theorem mkSnakes_get (gz : GridSize) (len : Nat) :
    ∀ (ids : List String) (i0 : Nat) (j : Nat) (h : j < ids.length),
    ∃ h2 : j < (mkSnakes gz len i0 ids).length,
      (mkSnakes gz len i0 ids).get ⟨j, h2⟩ =
        { id := ids.get ⟨j, h⟩, playerIndex := i0 + j,
          body := (getInitialSnakePlacement (i0 + j) gz len).body,
          direction := (getInitialSnakePlacement (i0 + j) gz len).direction,
          color := getPlayerColor (i0 + j), score := 0, alive := true } := by
  intro ids
  induction ids with
  | nil =>
    intro i0 j h
    exact absurd h (by simp)
  | cons pid rest ih =>
    intro i0 j h
    match j with
    | 0 =>
      refine ⟨by simp [mkSnakes_length], ?_⟩
      simp [mkSnakes]
    | j + 1 =>
      obtain ⟨h2, hg⟩ := ih (i0 + 1) j (by simpa using h)
      refine ⟨by simp only [mkSnakes_length] at h2 ⊢; simpa using Nat.succ_lt_succ h2, ?_⟩
      have : i0 + 1 + j = i0 + (j + 1) := by omega
      simpa [mkSnakes, this] using hg

theorem mkSnakes_mem (gz : GridSize) (len : Nat) :
    ∀ (ids : List String) (i0 : Nat) (s : Snake), s ∈ mkSnakes gz len i0 ids →
    ∃ k, k < ids.length ∧
      s.body = (getInitialSnakePlacement (i0 + k) gz len).body ∧ s.alive = true := by
  intro ids
  induction ids with
  | nil => intro i0 s h; simp [mkSnakes] at h
  | cons pid rest ih =>
    intro i0 s h
    simp only [mkSnakes, List.mem_cons] at h
    rcases h with h | h
    · exact ⟨0, by simp, by simp [h], by simp [h]⟩
    · obtain ⟨k, hk, hbody, halive⟩ := ih (i0 + 1) s h
      exact ⟨k + 1, by simpa using Nat.succ_lt_succ hk,
        by simpa [Nat.add_assoc, Nat.add_comm 1 k] using hbody, halive⟩

theorem genFoods_length (gz : GridSize) (cand : Nat → Position) (allFlat : List Position) :
    ∀ (n : Nat) (food : List Position) (idx : Nat),
    (genFoods gz cand allFlat n food idx).1.length = food.length + n := by
  intro n
  induction n with
  | zero => intro food idx; simp [genFoods]
  | succ m ih =>
    intro food idx
    simp [genFoods, ih]
    omega

/-- Transport `List.get` along an equality of lists. -/
theorem get_congr {α : Type} (l1 l2 : List α) (h : l1 = l2) (j : Nat)
    (hj : j < l1.length) : l1.get ⟨j, hj⟩ = l2.get ⟨j, h ▸ hj⟩ := by
  subst h
  rfl

/-- C7: `initializeGame` fails exactly on an empty id list; otherwise it
returns a state with `min(|playerIds|, maxPlayers)` snakes (silent
truncation), where the `j`-th snake carries `playerIndex = j`, score `0`,
`alive = true` and the `j`-th surviving id, with exactly `foodCount` food
items, `gameOver = false` and `isPaused = false`. -/
theorem claim_c7_initializeGame (playerIds : List String) (settings : GameSettings)
    (cand : Nat → Position) (idx : Nat) :
    (initializeGame playerIds settings cand idx = none ↔ playerIds = [])
    ∧ (∀ gs idx2, initializeGame playerIds settings cand idx = some (gs, idx2) →
        gs.snakes.length = min playerIds.length settings.maxPlayers ∧
        (∀ j, ∀ hj : j < gs.snakes.length,
          (gs.snakes.get ⟨j, hj⟩).playerIndex = j ∧
          (gs.snakes.get ⟨j, hj⟩).score = 0 ∧
          (gs.snakes.get ⟨j, hj⟩).alive = true ∧
          ∃ hjid : j < playerIds.length,
            (gs.snakes.get ⟨j, hj⟩).id = playerIds.get ⟨j, hjid⟩) ∧
        gs.food.length = settings.foodCount ∧
        gs.gameOver = false ∧ gs.isPaused = false) := by
  by_cases hnil : playerIds = []
  · subst hnil
    constructor
    · simp [initializeGame]
    · intro gs idx2 h
      simp [initializeGame] at h
  · have hrun : initializeGame playerIds settings cand idx =
        some ({ snakes := mkSnakes settings.gridSize settings.initialSnakeLength 0
                  (if settings.maxPlayers < playerIds.length
                   then playerIds.take settings.maxPlayers else playerIds),
                food := (genFoods settings.gridSize cand
                  ((mkSnakes settings.gridSize settings.initialSnakeLength 0
                    (if settings.maxPlayers < playerIds.length
                     then playerIds.take settings.maxPlayers else playerIds)).map
                      (fun s => s.body)).flatten
                  settings.foodCount [] idx).1,
                gridSize := settings.gridSize, gameOver := false, isPaused := false },
              (genFoods settings.gridSize cand
                ((mkSnakes settings.gridSize settings.initialSnakeLength 0
                  (if settings.maxPlayers < playerIds.length
                   then playerIds.take settings.maxPlayers else playerIds)).map
                    (fun s => s.body)).flatten
                settings.foodCount [] idx).2) := by
      simp only [initializeGame]
      rw [if_neg hnil]
    have hidslen : (if settings.maxPlayers < playerIds.length
        then playerIds.take settings.maxPlayers else playerIds).length =
        min playerIds.length settings.maxPlayers := by
      by_cases hgt : settings.maxPlayers < playerIds.length
      · rw [if_pos hgt, List.length_take]
        omega
      · rw [if_neg hgt]
        omega
    constructor
    · rw [hrun]
      simp [hnil]
    · intro gs idx2 h
      rw [hrun] at h
      have hpair := Option.some.inj h
      injection hpair with h1 h2
      have hsn : gs.snakes = mkSnakes settings.gridSize settings.initialSnakeLength 0
          (if settings.maxPlayers < playerIds.length
           then playerIds.take settings.maxPlayers else playerIds) :=
        (congrArg GameState.snakes h1).symm
      have hfd : gs.food = (genFoods settings.gridSize cand
          ((mkSnakes settings.gridSize settings.initialSnakeLength 0
            (if settings.maxPlayers < playerIds.length
             then playerIds.take settings.maxPlayers else playerIds)).map
              (fun s => s.body)).flatten
          settings.foodCount [] idx).1 :=
        (congrArg GameState.food h1).symm
      have hgo : gs.gameOver = false := (congrArg GameState.gameOver h1).symm
      have hip : gs.isPaused = false := (congrArg GameState.isPaused h1).symm
      refine ⟨?_, ?_, ?_, hgo, hip⟩
      · rw [hsn, mkSnakes_length, hidslen]
      · intro j hj
        have hjids : j < (if settings.maxPlayers < playerIds.length
            then playerIds.take settings.maxPlayers else playerIds).length := by
          rw [hsn, mkSnakes_length] at hj
          exact hj
        obtain ⟨h2g, hg⟩ := mkSnakes_get settings.gridSize settings.initialSnakeLength
          (if settings.maxPlayers < playerIds.length
           then playerIds.take settings.maxPlayers else playerIds) 0 j hjids
        have hjid : j < playerIds.length := by
          rw [hidslen] at hjids
          omega
        have hget : gs.snakes.get ⟨j, hj⟩ =
            (mkSnakes settings.gridSize settings.initialSnakeLength 0
              (if settings.maxPlayers < playerIds.length
               then playerIds.take settings.maxPlayers else playerIds)).get
              ⟨j, hsn ▸ hj⟩ :=
          get_congr _ _ hsn j hj
        rw [hget, hg]
        refine ⟨by simp, rfl, rfl, hjid, ?_⟩
        by_cases hgt : settings.maxPlayers < playerIds.length
        · have hgets : (if settings.maxPlayers < playerIds.length
              then playerIds.take settings.maxPlayers else playerIds) =
              playerIds.take settings.maxPlayers := if_pos hgt
          rw [get_congr _ _ hgets j hjids]
          simp [List.getElem_take]
        · have hgets : (if settings.maxPlayers < playerIds.length
              then playerIds.take settings.maxPlayers else playerIds) = playerIds :=
            if_neg hgt
          rw [get_congr _ _ hgets j hjids]
      · rw [hfd, genFoods_length]
        simp

/-! ### addPlayerToGame -/

theorem addPlayerToGame_def (gs : GameState) (pid : String) :
    addPlayerToGame gs pid =
      (if DEFAULT_SETTINGS.maxPlayers ≤ gs.snakes.length then none
       else if (getInitialSnakePlacement gs.snakes.length gs.gridSize
           DEFAULT_SETTINGS.initialSnakeLength).body.any (fun pos =>
             ((gs.snakes.map (fun s => s.body)).flatten ++ gs.food).any
               (fun occupiedPos => posEq occupiedPos pos)) = true then none
       else some { gs with snakes := gs.snakes ++
           [{ id := pid, playerIndex := gs.snakes.length,
              body := (getInitialSnakePlacement gs.snakes.length gs.gridSize
                DEFAULT_SETTINGS.initialSnakeLength).body,
              direction := (getInitialSnakePlacement gs.snakes.length gs.gridSize
                DEFAULT_SETTINGS.initialSnakeLength).direction,
              color := getPlayerColor gs.snakes.length, score := 0, alive := true }] }) :=
  rfl

theorem overlap_any_iff (l occ : List Position) :
    (l.any (fun pos => occ.any (fun occupiedPos => posEq occupiedPos pos)) = true) ↔
      ∃ p ∈ l, p ∈ occ := by
  simp only [List.any_eq_true]
  constructor
  · rintro ⟨p, hp, q, hq, heq⟩
    exact ⟨p, hp, ((posEq_iff q p).1 heq) ▸ hq⟩
  · rintro ⟨p, hp, hin⟩
    exact ⟨p, hp, p, hin, posEq_refl p⟩

/-- C6: `addPlayerToGame` signals failure (`none`) exactly when the game is
full (snake count at or above the default max player count) or the computed
spawn body for the next player index overlaps some existing snake body or
food position; otherwise it returns the input state with exactly one new
snake appended, having `playerIndex` equal to the previous snake count,
score `0` and `alive = true`.  (The Lean embedding is pure, so the input
state is never mutated.) -/
theorem claim_c6_addPlayer (gs : GameState) (pid : String) :
    (addPlayerToGame gs pid = none ↔
      (DEFAULT_SETTINGS.maxPlayers ≤ gs.snakes.length ∨
       ∃ p ∈ (getInitialSnakePlacement gs.snakes.length gs.gridSize
          DEFAULT_SETTINGS.initialSnakeLength).body,
         p ∈ (gs.snakes.map (fun s => s.body)).flatten ++ gs.food))
    ∧ (gs.snakes.length < DEFAULT_SETTINGS.maxPlayers →
       (∀ p ∈ (getInitialSnakePlacement gs.snakes.length gs.gridSize
          DEFAULT_SETTINGS.initialSnakeLength).body,
         p ∉ (gs.snakes.map (fun s => s.body)).flatten ++ gs.food) →
       addPlayerToGame gs pid =
         some { gs with snakes := (gs.snakes ++
           [{ id := pid, playerIndex := gs.snakes.length,
              body := (getInitialSnakePlacement gs.snakes.length gs.gridSize
                DEFAULT_SETTINGS.initialSnakeLength).body,
              direction := (getInitialSnakePlacement gs.snakes.length gs.gridSize
                DEFAULT_SETTINGS.initialSnakeLength).direction,
              color := getPlayerColor gs.snakes.length, score := 0, alive := true }]) }) := by
  rw [addPlayerToGame_def]
  by_cases hfull : DEFAULT_SETTINGS.maxPlayers ≤ gs.snakes.length
  · rw [if_pos hfull]
    constructor
    · constructor
      · intro _
        exact Or.inl hfull
      · intro _
        rfl
    · intro hlt
      exact absurd hfull (by omega)
  · rw [if_neg hfull]
    by_cases hover : ∃ p ∈ (getInitialSnakePlacement gs.snakes.length gs.gridSize
        DEFAULT_SETTINGS.initialSnakeLength).body,
        p ∈ (gs.snakes.map (fun s => s.body)).flatten ++ gs.food
    · rw [if_pos ((overlap_any_iff _ _).2 hover)]
      constructor
      · constructor
        · intro _
          exact Or.inr hover
        · intro _
          rfl
      · intro _ hnone
        obtain ⟨p, hp, hin⟩ := hover
        exact absurd hin (hnone p hp)
    · have hb : ((getInitialSnakePlacement gs.snakes.length gs.gridSize
          DEFAULT_SETTINGS.initialSnakeLength).body.any (fun pos =>
            ((gs.snakes.map (fun s => s.body)).flatten ++ gs.food).any
              (fun occupiedPos => posEq occupiedPos pos))) ≠ true := by
        intro hcon
        exact hover ((overlap_any_iff _ _).1 hcon)
      rw [if_neg hb]
      constructor
      · constructor
        · intro hcon
          exact absurd hcon (by simp)
        · intro hcase
          rcases hcase with hcase | hcase
          · exact absurd hcase hfull
          · exact absurd hcase hover
      · intro _ _
        rfl

/-- A one-player state with one food item, for concrete instantiations. -/
def gsAddInput : GameState :=
  { snakes := [snakeLong], food := [{ x := 10, y := 20 }],
    gridSize := { width := 30, height := 30 }, gameOver := false, isPaused := false }

/-- The snake spawned for player index 1 on the default grid. -/
def snakeP1 : Snake :=
  { id := "b", playerIndex := 1,
    body := [{ x := 25, y := 27 }, { x := 26, y := 27 }, { x := 27, y := 27 }],
    direction := Direction.LEFT, color := "var(--color-snake2)", score := 0, alive := true }

/-- Witness for C6 at a concrete input: adding a second player to a fresh
one-player game on the default grid succeeds and appends the snake for
player index 1. -/
theorem claim_c6_witness :
    addPlayerToGame gsAddInput "b" =
      some { gsAddInput with snakes := [snakeLong, snakeP1] } :=
  (claim_c6_addPlayer gsAddInput "b").2 (by decide) (by decide)

/-- C8: for an in-bounds head on a positive grid, the next head position is
always in bounds, and each of the four edge cases wraps toroidally: `x=0`
heading LEFT lands on `x=width-1` with `y` unchanged, `x=width-1` heading
RIGHT lands on `x=0`, and symmetrically on the vertical axis. -/
theorem claim_c8_wraparound (head : Position) (d : Direction) (gz : GridSize)
    (hw : 0 < gz.width) (hh : 0 < gz.height)
    (hx1 : 0 ≤ head.x) (hx2 : head.x < gz.width)
    (hy1 : 0 ≤ head.y) (hy2 : head.y < gz.height) :
    (0 ≤ (getNextPosition head d gz).x ∧ (getNextPosition head d gz).x < gz.width ∧
     0 ≤ (getNextPosition head d gz).y ∧ (getNextPosition head d gz).y < gz.height)
    ∧ (head.x = 0 →
        getNextPosition head Direction.LEFT gz = { x := gz.width - 1, y := head.y })
    ∧ (head.x = gz.width - 1 →
        getNextPosition head Direction.RIGHT gz = { x := 0, y := head.y })
    ∧ (head.y = 0 →
        getNextPosition head Direction.UP gz = { x := head.x, y := gz.height - 1 })
    ∧ (head.y = gz.height - 1 →
        getNextPosition head Direction.DOWN gz = { x := head.x, y := 0 }) := by
  refine ⟨?_, ?_, ?_, ?_, ?_⟩
  · cases d <;>
      (simp only [getNextPosition]
       refine ⟨?_, ?_, ?_, ?_⟩ <;> (split_ifs <;> omega))
  · intro h0
    simp only [getNextPosition, Position.mk.injEq]
    split_ifs <;> constructor <;> omega
  · intro h0
    simp only [getNextPosition, Position.mk.injEq]
    split_ifs <;> constructor <;> omega
  · intro h0
    simp only [getNextPosition, Position.mk.injEq]
    split_ifs <;> constructor <;> omega
  · intro h0
    simp only [getNextPosition, Position.mk.injEq]
    split_ifs <;> constructor <;> omega

/-- Witness for C8 at a concrete input: on the default 30-by-30 grid, a head
at the left edge heading LEFT wraps to the right edge. -/
theorem claim_c8_witness :
    (0 ≤ (getNextPosition { x := 0, y := 5 } Direction.LEFT
        { width := 30, height := 30 }).x ∧
     (getNextPosition { x := 0, y := 5 } Direction.LEFT
        { width := 30, height := 30 }).x < (30 : Int) ∧
     0 ≤ (getNextPosition { x := 0, y := 5 } Direction.LEFT
        { width := 30, height := 30 }).y ∧
     (getNextPosition { x := 0, y := 5 } Direction.LEFT
        { width := 30, height := 30 }).y < (30 : Int))
    ∧ getNextPosition { x := 0, y := 5 } Direction.LEFT { width := 30, height := 30 } =
        { x := 29, y := 5 } := by
  have h := claim_c8_wraparound { x := 0, y := 5 } Direction.LEFT
    { width := 30, height := 30 } (by decide) (by decide) (by decide) (by decide)
    (by decide) (by decide)
  exact ⟨h.1, h.2.1 rfl⟩

/-- C1: in a running, unpaused state, an alive snake whose computed next head
position coincides with any segment of any snake's pre-tick body (its own
included) comes out of the tick with `alive = false` and every other field —
in particular its body — exactly equal to its pre-tick value: it receives no
further updates in that tick. -/
theorem claim_c1_collision_freezes (gs : GameState) (cand : Nat → Position) (idx : Nat)
    (i : Nat) (hi : i < gs.snakes.length)
    (hgo : gs.gameOver = false) (hp : gs.isPaused = false)
    (halive : (gs.snakes.get ⟨i, hi⟩).alive = true)
    (_hbody : (gs.snakes.get ⟨i, hi⟩).body ≠ [])
    (hhit : ∃ b ∈ gs.snakes.map (fun snake => snake.body),
      nextHead gs.gridSize (gs.snakes.get ⟨i, hi⟩) ∈ b) :
    ∃ hi2 : i < (updateGame cand gs idx).1.snakes.length,
      (updateGame cand gs idx).1.snakes.get ⟨i, hi2⟩ =
        { gs.snakes.get ⟨i, hi⟩ with alive := false } := by
  have hcol : checkCollision (nextHead gs.gridSize (gs.snakes.get ⟨i, hi⟩))
      (gs.snakes.map (fun snake => snake.body))
      (gs.snakes.get ⟨i, hi⟩).playerIndex = true :=
    (checkCollision_iff _ _ _).2 hhit
  obtain ⟨f, x, h2, hg⟩ := updateSnakes_get gs.gridSize
    (gs.snakes.map (fun snake => snake.body)) cand gs.snakes gs.food idx i hi
  have hsn := updateGame_snakes cand gs idx hgo hp
  have hi2 : i < (updateGame cand gs idx).1.snakes.length := by
    rw [hsn]
    exact h2
  refine ⟨hi2, ?_⟩
  rw [get_congr _ _ hsn i hi2, hg,
    stepSnake_collide gs.gridSize (gs.snakes.map (fun snake => snake.body)) cand
      (gs.snakes.get ⟨i, hi⟩) f x halive hcol]

/-- The constant candidate stream, for concrete instantiations. -/
def candZero : Nat → Position := fun _ => { x := 0, y := 0 }

/-- A snake about to run into its own body, for concrete instantiations. -/
def snakeSelfHit : Snake :=
  { id := "a", playerIndex := 0,
    body := [{ x := 1, y := 0 }, { x := 0, y := 0 }, { x := 0, y := 1 }, { x := 1, y := 1 }],
    direction := Direction.DOWN, color := "var(--color-snake1)", score := 0, alive := true }

def gsSelfHit : GameState :=
  { snakes := [snakeSelfHit], food := [], gridSize := { width := 30, height := 30 },
    gameOver := false, isPaused := false }

/-- Witness for C1 at a concrete input: a snake heading DOWN into its own
tail segment dies with its body frozen. -/
theorem claim_c1_witness :
    ∃ hi2 : 0 < (updateGame candZero gsSelfHit 0).1.snakes.length,
      (updateGame candZero gsSelfHit 0).1.snakes.get ⟨0, hi2⟩ =
        { snakeSelfHit with alive := false } :=
  claim_c1_collision_freezes gsSelfHit candZero 0 0 (by decide) rfl rfl (by decide)
    (by decide) ⟨snakeSelfHit.body, by decide, by decide⟩

/-- C3: for a running, unpaused state, the tick's result has `gameOver = true`
iff some snake was alive at the start of the tick and none is alive at the
end; and a tick applied to a state with `gameOver = true` returns the input
state unchanged. -/
theorem claim_c3_gameOver (gs : GameState) (cand : Nat → Position) (idx : Nat) :
    (gs.gameOver = false → gs.isPaused = false →
      ((updateGame cand gs idx).1.gameOver = true ↔
        (gs.snakes.any (fun snake => snake.alive) = true ∧
         (updateGame cand gs idx).1.snakes.any (fun snake => snake.alive) = false)))
    ∧ (gs.gameOver = true → (updateGame cand gs idx).1 = gs) := by
  constructor
  · intro hgo hp
    rw [updateGame_gameOver_def cand gs idx hgo hp]
    rcases hw : gs.snakes.any (fun snake => snake.alive) with _ | _
    · rw [if_neg (by simp)]
      constructor
      · intro h
        rw [hgo] at h
        exact absurd h (by simp)
      · rintro ⟨h1, _⟩
        exact absurd h1 (by simp)
    · rw [if_pos rfl]
      constructor
      · intro h
        exact ⟨rfl, by simpa using h⟩
      · rintro ⟨_, h2⟩
        simpa using h2
  · intro hgo
    exact updateGame_noop cand gs idx (Or.inl hgo)

/-- A finished-game state, for concrete instantiations. -/
def gsOverState : GameState :=
  { snakes := [snakeSelfHit], food := [], gridSize := { width := 30, height := 30 },
    gameOver := true, isPaused := false }

/-- Witness for C3 at concrete inputs: the tick that kills the only alive
snake flips `gameOver`, and a tick on a finished game is the identity. -/
theorem claim_c3_witness :
    ((updateGame candZero gsSelfHit 0).1.gameOver = true ↔
      (gsSelfHit.snakes.any (fun snake => snake.alive) = true ∧
       (updateGame candZero gsSelfHit 0).1.snakes.any (fun snake => snake.alive) = false))
    ∧ (updateGame candZero gsOverState 0).1 = gsOverState :=
  ⟨(claim_c3_gameOver gsSelfHit candZero 0).1 rfl rfl,
   (claim_c3_gameOver gsOverState candZero 0).2 rfl⟩

/-- Two snakes one cell apart on either side of the free cell `(6,5)`. -/
def snakeWest : Snake :=
  { id := "a", playerIndex := 0, body := [{ x := 5, y := 5 }],
    direction := Direction.RIGHT, color := "var(--color-snake1)", score := 0, alive := true }

def snakeEast : Snake :=
  { id := "b", playerIndex := 1, body := [{ x := 7, y := 5 }],
    direction := Direction.LEFT, color := "var(--color-snake2)", score := 0, alive := true }

def gsMeet : GameState :=
  { snakes := [snakeWest, snakeEast], food := [],
    gridSize := { width := 30, height := 30 }, gameOver := false, isPaused := false }

/-- C10: there is a running, unpaused state with two alive snakes whose next
head positions are the same cell, unoccupied by every pre-tick body, and after
one tick both snakes are still alive with their heads on that same
coordinate: collision checking uses only pre-tick bodies, so cross-snake body
disjointness is not an invariant of the tick. -/
theorem claim_c10_heads_merge :
    gsMeet.gameOver = false ∧ gsMeet.isPaused = false ∧
    (∀ s ∈ gsMeet.snakes, s.alive = true) ∧
    nextHead gsMeet.gridSize snakeWest = nextHead gsMeet.gridSize snakeEast ∧
    (∀ b ∈ gsMeet.snakes.map (fun snake => snake.body),
      nextHead gsMeet.gridSize snakeWest ∉ b) ∧
    (updateGame candZero gsMeet 0).1.snakes.map (fun s => s.alive) = [true, true] ∧
    (updateGame candZero gsMeet 0).1.snakes.map
      (fun s => s.body.headD { x := 0, y := 0 }) =
      [{ x := 6, y := 5 }, { x := 6, y := 5 }] := by
  decide

/-- One engine operation leaves a dead snake untouched at its index. -/
theorem EngineStep_dead_frozen (gs gs' : GameState) (hstep : EngineStep gs gs')
    (i : Nat) (hi : i < gs.snakes.length)
    (hdead : (gs.snakes.get ⟨i, hi⟩).alive = false) :
    ∃ hi2 : i < gs'.snakes.length, gs'.snakes.get ⟨i, hi2⟩ = gs.snakes.get ⟨i, hi⟩ := by
  cases hstep with
  | tick cand idx =>
    rcases hguard1 : gs.gameOver with _ | _
    · rcases hguard2 : gs.isPaused with _ | _
      · have hsn := updateGame_snakes cand gs idx hguard1 hguard2
        obtain ⟨f, x, h2, hg⟩ := updateSnakes_get gs.gridSize
          (gs.snakes.map (fun snake => snake.body)) cand gs.snakes gs.food idx i hi
        have hi2 : i < (updateGame cand gs idx).1.snakes.length := by
          rw [hsn]
          exact h2
        refine ⟨hi2, ?_⟩
        rw [get_congr _ _ hsn i hi2, hg,
          stepSnake_dead gs.gridSize (gs.snakes.map (fun snake => snake.body)) cand
            (gs.snakes.get ⟨i, hi⟩) f x hdead]
      · rw [updateGame_noop cand gs idx (Or.inr hguard2)]
        exact ⟨hi, rfl⟩
    · rw [updateGame_noop cand gs idx (Or.inl hguard1)]
      exact ⟨hi, rfl⟩
  | dir pid d =>
    rcases changeDirection_cases gs pid d with h | ⟨j, hj, _, haj, heq⟩
    · rw [h]
      exact ⟨hi, rfl⟩
    · rw [heq]
      have hne : j ≠ i := by
        intro hji
        subst hji
        rw [haj] at hdead
        exact absurd hdead (by simp)
      refine ⟨by simpa using hi, ?_⟩
      simp only [List.get_eq_getElem]
      exact List.getElem_set_ne hne _
  | add pid g1 g2 hadd =>
    rw [addPlayerToGame_def] at hadd
    by_cases hfull : DEFAULT_SETTINGS.maxPlayers ≤ gs.snakes.length
    · rw [if_pos hfull] at hadd
      cases hadd
    · rw [if_neg hfull] at hadd
      by_cases hover : ((getInitialSnakePlacement gs.snakes.length gs.gridSize
          DEFAULT_SETTINGS.initialSnakeLength).body.any (fun pos =>
            ((gs.snakes.map (fun s => s.body)).flatten ++ gs.food).any
              (fun occupiedPos => posEq occupiedPos pos))) = true
      · rw [if_pos hover] at hadd
        cases hadd
      · rw [if_neg hover] at hadd
        have hgs2 := (Option.some.inj hadd).symm
        rw [hgs2]
        refine ⟨?_, ?_⟩
        · simp
          omega
        · simp only [List.get_eq_getElem]
          exact List.getElem_append_left hi

/-- C9: once a snake is dead, no sequence of engine operations (ticks,
direction changes, successful player additions) ever revives it; it stays in
the snakes sequence at its index with body, score and every other field
unchanged — frozen, not removed. -/
theorem claim_c9_dead_stays_dead (gs gs' : GameState)
    (hreach : Relation.ReflTransGen EngineStep gs gs')
    (i : Nat) (hi : i < gs.snakes.length)
    (hdead : (gs.snakes.get ⟨i, hi⟩).alive = false) :
    ∃ hi2 : i < gs'.snakes.length, gs'.snakes.get ⟨i, hi2⟩ = gs.snakes.get ⟨i, hi⟩ := by
  induction hreach with
  | refl => exact ⟨hi, rfl⟩
  | tail hab hbc ih =>
    obtain ⟨hib, hb⟩ := ih
    obtain ⟨hic, hc⟩ := EngineStep_dead_frozen _ _ hbc i hib (by rw [hb]; exact hdead)
    exact ⟨hic, by rw [hc, hb]⟩

/-- A dead snake in an otherwise running state, for concrete instantiations. -/
def snakeDead : Snake := { snakeSelfHit with alive := false }

def gsDead : GameState :=
  { snakes := [snakeDead, snakeWest], food := [],
    gridSize := { width := 30, height := 30 }, gameOver := false, isPaused := false }

/-- Witness for C9 at a concrete input: after one tick, the dead snake is
still present, dead and unchanged. -/
theorem claim_c9_witness :
    ∃ hi2 : 0 < (updateGame candZero gsDead 0).1.snakes.length,
      (updateGame candZero gsDead 0).1.snakes.get ⟨0, hi2⟩ = snakeDead :=
  claim_c9_dead_stays_dead gsDead (updateGame candZero gsDead 0).1
    (Relation.ReflTransGen.single (EngineStep.tick candZero 0 gsDead)) 0
    (by decide) (by decide)

/-! ### The per-snake body-distinctness invariant (C4) -/

/-- An alive snake has a nonempty body with pairwise-distinct coordinates. -/
def SnakeOK (s : Snake) : Prop := s.alive = true → s.body ≠ [] ∧ s.body.Nodup

/-- Invariant carried by every state reachable with default settings. -/
def StateInv (gs : GameState) : Prop :=
  gs.gridSize = { width := 30, height := 30 } ∧ ∀ s ∈ gs.snakes, SnakeOK s

theorem placement_ok (k : Nat) (hk : k < 4) :
    (getInitialSnakePlacement k { width := 30, height := 30 } 3).body ≠ [] ∧
    (getInitialSnakePlacement k { width := 30, height := 30 } 3).body.Nodup := by
  interval_cases k <;> decide

/-- Field characterization of a successful `initializeGame`. -/
theorem initializeGame_fields (playerIds : List String) (settings : GameSettings)
    (cand : Nat → Position) (idx : Nat) (gs : GameState) (idx2 : Nat)
    (h : initializeGame playerIds settings cand idx = some (gs, idx2)) :
    gs.gridSize = settings.gridSize ∧ gs.gameOver = false ∧ gs.isPaused = false ∧
    gs.snakes = mkSnakes settings.gridSize settings.initialSnakeLength 0
      (if settings.maxPlayers < playerIds.length
       then playerIds.take settings.maxPlayers else playerIds) := by
  by_cases hnil : playerIds = []
  · subst hnil
    simp [initializeGame] at h
  · have hrun : initializeGame playerIds settings cand idx =
        some ({ snakes := mkSnakes settings.gridSize settings.initialSnakeLength 0
                  (if settings.maxPlayers < playerIds.length
                   then playerIds.take settings.maxPlayers else playerIds),
                food := (genFoods settings.gridSize cand
                  ((mkSnakes settings.gridSize settings.initialSnakeLength 0
                    (if settings.maxPlayers < playerIds.length
                     then playerIds.take settings.maxPlayers else playerIds)).map
                      (fun s => s.body)).flatten
                  settings.foodCount [] idx).1,
                gridSize := settings.gridSize, gameOver := false, isPaused := false },
              (genFoods settings.gridSize cand
                ((mkSnakes settings.gridSize settings.initialSnakeLength 0
                  (if settings.maxPlayers < playerIds.length
                   then playerIds.take settings.maxPlayers else playerIds)).map
                    (fun s => s.body)).flatten
                settings.foodCount [] idx).2) := by
      simp only [initializeGame]
      rw [if_neg hnil]
    rw [hrun] at h
    have hpair := Option.some.inj h
    injection hpair with h1 h2
    exact ⟨(congrArg GameState.gridSize h1).symm, (congrArg GameState.gameOver h1).symm,
      (congrArg GameState.isPaused h1).symm, (congrArg GameState.snakes h1).symm⟩

/-- `initializeGame` with default settings establishes the invariant. -/
theorem initializeGame_inv (ids : List String) (cand : Nat → Position) (idx : Nat)
    (gs : GameState) (idx2 : Nat)
    (h : initializeGame ids DEFAULT_SETTINGS cand idx = some (gs, idx2)) :
    StateInv gs := by
  obtain ⟨hgz, _, _, hsn⟩ := initializeGame_fields ids DEFAULT_SETTINGS cand idx gs idx2 h
  refine ⟨hgz, ?_⟩
  intro s hs
  rw [hsn] at hs
  obtain ⟨k, hk, hbody, _⟩ := mkSnakes_mem DEFAULT_SETTINGS.gridSize
    DEFAULT_SETTINGS.initialSnakeLength _ 0 s hs
  have hk4 : k < 4 := by
    have hlen : (if DEFAULT_SETTINGS.maxPlayers < ids.length
        then ids.take DEFAULT_SETTINGS.maxPlayers else ids).length ≤ 4 := by
      by_cases hgt : DEFAULT_SETTINGS.maxPlayers < ids.length
      · rw [if_pos hgt, List.length_take]
        have : DEFAULT_SETTINGS.maxPlayers = 4 := rfl
        omega
      · rw [if_neg hgt]
        have : DEFAULT_SETTINGS.maxPlayers = 4 := rfl
        omega
    omega
  intro _
  rw [hbody]
  have h0k : 0 + k = k := by omega
  rw [h0k]
  exact placement_ok k hk4

/-- Every engine operation preserves the invariant. -/
theorem EngineStep_inv (gs gs' : GameState) (hstep : EngineStep gs gs')
    (hinv : StateInv gs) : StateInv gs' := by
  obtain ⟨hgz, hsn⟩ := hinv
  cases hstep with
  | tick cand idx =>
    refine ⟨by rw [updateGame_gridSize]; exact hgz, ?_⟩
    intro s' hs'
    rcases hgo : gs.gameOver with _ | _
    · rcases hp : gs.isPaused with _ | _
      · rw [updateGame_snakes cand gs idx hgo hp] at hs'
        obtain ⟨s, hsmem, f, x, rfl⟩ := updateSnakes_mem gs.gridSize
          (gs.snakes.map (fun snake => snake.body)) cand gs.snakes gs.food idx _ hs'
        rcases stepSnake_cases gs.gridSize (gs.snakes.map (fun snake => snake.body))
            cand s f x with ⟨_, heq⟩ | ⟨_, _, heq⟩ | ⟨ha, hc, hshape⟩
        · rw [heq]
          exact hsn s hsmem
        · rw [heq]
          intro hcon
          simp at hcon
        · obtain ⟨_, hnodup⟩ := hsn s hsmem ha
          have hmem_ab : s.body ∈ gs.snakes.map (fun snake => snake.body) :=
            List.mem_map_of_mem (fun snake => snake.body) hsmem
          have hnot : nextHead gs.gridSize s ∉ s.body := by
            intro hin
            have hcon : checkCollision (nextHead gs.gridSize s)
                (gs.snakes.map (fun snake => snake.body)) s.playerIndex = true :=
              (checkCollision_iff _ _ _).2 ⟨s.body, hmem_ab, hin⟩
            rw [hc] at hcon
            cases hcon
          rcases hshape with heq | heq
          · rw [heq]
            intro _
            refine ⟨by simp, ?_⟩
            exact List.nodup_cons.2 ⟨hnot, hnodup⟩
          · rw [heq]
            intro _
            refine ⟨by simp, ?_⟩
            refine List.nodup_cons.2 ⟨?_, ?_⟩
            · intro hin
              exact hnot ((List.dropLast_sublist s.body).subset hin)
            · exact (List.dropLast_sublist s.body).nodup hnodup
      · rw [updateGame_noop cand gs idx (Or.inr hp)] at hs'
        exact hsn s' hs'
    · rw [updateGame_noop cand gs idx (Or.inl hgo)] at hs'
      exact hsn s' hs'
  | dir pid d =>
    rcases changeDirection_cases gs pid d with h | ⟨j, hj, _, _, heq⟩
    · rw [h]
      exact ⟨hgz, hsn⟩
    · rw [heq]
      refine ⟨hgz, ?_⟩
      intro s' hs'
      simp only at hs'
      rcases List.mem_or_eq_of_mem_set hs' with hmem | rfl
      · exact hsn s' hmem
      · have hold := hsn (gs.snakes.get ⟨j, hj⟩) (List.get_mem gs.snakes j hj)
        intro halive
        exact hold halive
  | add pid g1 g2 hadd =>
    rw [addPlayerToGame_def] at hadd
    by_cases hfull : DEFAULT_SETTINGS.maxPlayers ≤ gs.snakes.length
    · rw [if_pos hfull] at hadd
      cases hadd
    · rw [if_neg hfull] at hadd
      by_cases hover : ((getInitialSnakePlacement gs.snakes.length gs.gridSize
          DEFAULT_SETTINGS.initialSnakeLength).body.any (fun pos =>
            ((gs.snakes.map (fun s => s.body)).flatten ++ gs.food).any
              (fun occupiedPos => posEq occupiedPos pos))) = true
      · rw [if_pos hover] at hadd
        cases hadd
      · rw [if_neg hover] at hadd
        have hgs2 := (Option.some.inj hadd).symm
        rw [hgs2]
        refine ⟨hgz, ?_⟩
        intro s' hs'
        simp only at hs'
        rcases List.mem_append.1 hs' with hmem | hnew
        · exact hsn s' hmem
        · have hlen4 : gs.snakes.length < 4 := by
            have : DEFAULT_SETTINGS.maxPlayers = 4 := rfl
            omega
          have hpl := placement_ok gs.snakes.length hlen4
          rw [hgz] at hnew
          simp only [List.mem_singleton] at hnew
          subst hnew
          intro _
          exact hpl

theorem ReachableDefault_inv (gs : GameState) (h : ReachableDefault gs) : StateInv gs := by
  induction h with
  | init ids cand idx gs0 idx' hinit => exact initializeGame_inv ids cand idx gs0 idx' hinit
  | step g g' _ hstep ih => exact EngineStep_inv g g' hstep ih

/-- C4: in every state reachable from `initializeGame` (default settings) by
ticks, direction changes and successful player additions, every alive snake
has a nonempty body in which no two entries share the same coordinate; each
engine operation preserves this per-snake distinctness invariant. -/
theorem claim_c4_alive_body_nodup (gs : GameState) (h : ReachableDefault gs) :
    ∀ s ∈ gs.snakes, s.alive = true → s.body ≠ [] ∧ s.body.Nodup := by
  intro s hs ha
  exact (ReachableDefault_inv gs h).2 s hs ha

/-- A deterministic candidate stream producing distinct free cells on row 20. -/
def exCand : Nat → Position := fun n => { x := 10 + (n : Int), y := 20 }

/-- The state produced by `initializeGame ["a"] DEFAULT_SETTINGS exCand 0`. -/
def gsInit7 : GameState :=
  { snakes := [snakeLong],
    food := [{ x := 10, y := 20 }, { x := 11, y := 20 }, { x := 12, y := 20 }],
    gridSize := { width := 30, height := 30 }, gameOver := false, isPaused := false }

/-- Witness for C4 at a concrete input: the host snake of a freshly
initialized game has a nonempty, duplicate-free body. -/
theorem claim_c4_witness : snakeLong.body ≠ [] ∧ snakeLong.body.Nodup :=
  claim_c4_alive_body_nodup gsInit7
    (ReachableDefault.init ["a"] exCand 0 gsInit7 3 (by decide))
    snakeLong (List.mem_cons_self snakeLong []) rfl

/-- Witness for C7 at a concrete input: initializing a one-player game with
default settings yields one snake with index 0, score 0, alive, three food
items and cleared flags. -/
theorem claim_c7_witness :
    gsInit7.snakes.length = min (["a"] : List String).length DEFAULT_SETTINGS.maxPlayers ∧
    (∀ j, ∀ hj : j < gsInit7.snakes.length,
      (gsInit7.snakes.get ⟨j, hj⟩).playerIndex = j ∧
      (gsInit7.snakes.get ⟨j, hj⟩).score = 0 ∧
      (gsInit7.snakes.get ⟨j, hj⟩).alive = true ∧
      ∃ hjid : j < (["a"] : List String).length,
        (gsInit7.snakes.get ⟨j, hj⟩).id = (["a"] : List String).get ⟨j, hjid⟩) ∧
    gsInit7.food.length = DEFAULT_SETTINGS.foodCount ∧
    gsInit7.gameOver = false ∧ gsInit7.isPaused = false :=
  (claim_c7_initializeGame ["a"] DEFAULT_SETTINGS exCand 0).2 gsInit7 3 (by decide)

/-- A running state whose only food item lies on the snake's own body, right
where the snake is heading. -/
def gsFoodOnBody : GameState :=
  { snakes := [snakeSelfHit], food := [{ x := 1, y := 1 }],
    gridSize := { width := 30, height := 30 }, gameOver := false, isPaused := false }

/-- Counterexample to C2 as stated: in `gsFoodOnBody` the alive snake's next
head position `(1,1)` is a food position, yet the tick does not grow it —
collision with the pre-tick body is checked first, so the snake dies with
length 4 (not 5) and score 0 (not 1). -/
theorem claim_c2_counterexample :
    gsFoodOnBody.gameOver = false ∧ gsFoodOnBody.isPaused = false ∧
    snakeSelfHit.alive = true ∧
    nextHead gsFoodOnBody.gridSize snakeSelfHit ∈ gsFoodOnBody.food ∧
    ¬((updateGame candZero gsFoodOnBody 0).1.snakes.map (fun s => s.body.length) =
        [snakeSelfHit.body.length + 1]) ∧
    (updateGame candZero gsFoodOnBody 0).1.snakes.map (fun s => s.score) = [0] ∧
    (updateGame candZero gsFoodOnBody 0).1.snakes.map (fun s => s.alive) = [false] := by
  decide

/-- C2 (amended): in a running, unpaused state, an alive snake whose next
head position `P` equals the position of some pre-tick food item — provided
`P` lies on no snake's pre-tick body (no collision, which is checked first)
and no earlier-processed alive snake has the same next head position — comes
out of the tick with the new head prepended (length + 1) and score + 1; the
total food count is unchanged, and when the snake was processed the food item
at `P` (at the found index) was removed and exactly one replacement was
generated avoiding all pre-tick bodies, the new head position and the
remaining food. -/
theorem claim_c2_eat_grows (gs : GameState) (cand : Nat → Position) (idx : Nat)
    (i : Nat) (hi : i < gs.snakes.length)
    (hgo : gs.gameOver = false) (hp : gs.isPaused = false)
    (halive : (gs.snakes.get ⟨i, hi⟩).alive = true)
    (hfood : nextHead gs.gridSize (gs.snakes.get ⟨i, hi⟩) ∈ gs.food)
    (hnocol : ∀ b ∈ gs.snakes.map (fun snake => snake.body),
      nextHead gs.gridSize (gs.snakes.get ⟨i, hi⟩) ∉ b)
    (hfirst : ∀ j, ∀ hj : j < i,
      (gs.snakes.get ⟨j, Nat.lt_trans hj hi⟩).alive = true →
      nextHead gs.gridSize (gs.snakes.get ⟨j, Nat.lt_trans hj hi⟩) ≠
        nextHead gs.gridSize (gs.snakes.get ⟨i, hi⟩)) :
    (∃ hi2 : i < (updateGame cand gs idx).1.snakes.length,
      (updateGame cand gs idx).1.snakes.get ⟨i, hi2⟩ =
        { gs.snakes.get ⟨i, hi⟩ with
          score := (gs.snakes.get ⟨i, hi⟩).score + 1,
          body := nextHead gs.gridSize (gs.snakes.get ⟨i, hi⟩) ::
            (gs.snakes.get ⟨i, hi⟩).body })
    ∧ (updateGame cand gs idx).1.food.length = gs.food.length
    ∧ ∃ foodB idxB k,
        nextHead gs.gridSize (gs.snakes.get ⟨i, hi⟩) ∈ foodB ∧
        findFoodIdx (nextHead gs.gridSize (gs.snakes.get ⟨i, hi⟩)) foodB = some k ∧
        (∃ hi3 : i < (updateSnakes gs.gridSize
            (gs.snakes.map (fun snake => snake.body)) cand gs.snakes gs.food idx).1.length,
          (updateSnakes gs.gridSize (gs.snakes.map (fun snake => snake.body)) cand
            gs.snakes gs.food idx).1.get ⟨i, hi3⟩ =
          (stepSnake gs.gridSize (gs.snakes.map (fun snake => snake.body)) cand
            (gs.snakes.get ⟨i, hi⟩) foodB idxB).1) ∧
        (stepSnake gs.gridSize (gs.snakes.map (fun snake => snake.body)) cand
          (gs.snakes.get ⟨i, hi⟩) foodB idxB).2.1 =
          foodB.eraseIdx k ++
            [(generateFood gs.gridSize
              ((gs.snakes.map (fun snake => snake.body)).flatten ++
                nextHead gs.gridSize (gs.snakes.get ⟨i, hi⟩) :: foodB.eraseIdx k)
              cand idxB).1] := by
  have hcolF : checkCollision (nextHead gs.gridSize (gs.snakes.get ⟨i, hi⟩))
      (gs.snakes.map (fun snake => snake.body))
      (gs.snakes.get ⟨i, hi⟩).playerIndex = false :=
    checkCollision_eq_false _ _ _ hnocol
  obtain ⟨foodB, idxB, hPmem, hi3, hg⟩ := updateSnakes_get_foodMem gs.gridSize
    (gs.snakes.map (fun snake => snake.body)) cand
    (nextHead gs.gridSize (gs.snakes.get ⟨i, hi⟩)) gs.snakes gs.food idx i hi hfood hfirst
  obtain ⟨k, hk⟩ := findFoodIdx_mem _ foodB hPmem
  have hstep := stepSnake_eat gs.gridSize (gs.snakes.map (fun snake => snake.body)) cand
    (gs.snakes.get ⟨i, hi⟩) foodB idxB k halive hcolF hk
  have hsn := updateGame_snakes cand gs idx hgo hp
  refine ⟨?_, ?_, foodB, idxB, k, hPmem, hk, ⟨hi3, hg⟩, by rw [hstep]⟩
  · have hi2 : i < (updateGame cand gs idx).1.snakes.length := by
      rw [hsn]
      exact hi3
    refine ⟨hi2, ?_⟩
    rw [get_congr _ _ hsn i hi2, hg, hstep]
  · rw [updateGame_food cand gs idx hgo hp, updateSnakes_food_length]

/-- A single snake one step west of the only food item. -/
def gsEat : GameState :=
  { snakes := [snakeWest], food := [{ x := 6, y := 5 }],
    gridSize := { width := 30, height := 30 }, gameOver := false, isPaused := false }

/-- Witness for (amended) C2 at a concrete input: the snake eats the food at
`(6,5)`, growing to length 2 with score 1, and the food count stays 1. -/
theorem claim_c2_witness :
    (∃ hi2 : 0 < (updateGame candZero gsEat 0).1.snakes.length,
      (updateGame candZero gsEat 0).1.snakes.get ⟨0, hi2⟩ =
        { snakeWest with
          score := 1,
          body := [{ x := 6, y := 5 }, { x := 5, y := 5 }] })
    ∧ (updateGame candZero gsEat 0).1.food.length = gsEat.food.length :=
  ⟨(claim_c2_eat_grows gsEat candZero 0 0 (by decide) rfl rfl rfl (by decide) (by decide)
      (fun j hj => absurd hj (Nat.not_lt_zero j))).1,
   (claim_c2_eat_grows gsEat candZero 0 0 (by decide) rfl rfl rfl (by decide) (by decide)
      (fun j hj => absurd hj (Nat.not_lt_zero j))).2.1⟩
